import Mathlib

/-
Verification development for the model-to-view synchronization engine of
BasicGraphicsScene (src/src/BasicGraphicsScene.cpp).

The scene state is embedded shallowly: the four id-keyed registries
(node graphics objects, connection graphics objects, annotation dialogs,
text labels) become association lists, the draft connection becomes an
Option, and emitted signals together with proxy constructions are recorded
in an event log so that emission and creation-order properties can be
stated.  External collaborators (the AbstractGraphModel queries, geometry
derived endpoints, the header-to-color map) are bundled in an Env record
of functions, mirroring section 6 of the design document.
-/

namespace QtNodes

abbrev NodeId := Nat

abbrev PortIndex := Nat

/-- Directed connection identifier: (outgoing node, outgoing port,
incoming node, incoming port); equality is by this composite. -/
structure ConnectionId where
  outNodeId : NodeId
  outPortIndex : PortIndex
  inNodeId : NodeId
  inPortIndex : PortIndex
deriving DecidableEq

inductive PortType
  | In
  | Out
deriving DecidableEq

/-- ConnectionIdUtils helper: the node id at the given side of a connection. -/
def getNodeId (portType : PortType) (cid : ConnectionId) : NodeId :=
  match portType with
  | .Out => cid.outNodeId
  | .In => cid.inNodeId

/-- Screen-space point (QPointF); integer coordinates suffice for the
bookkeeping proved here. -/
structure QPointF where
  x : Int
  y : Int
deriving DecidableEq

inductive Orientation
  | Horizontal
  | Vertical
deriving DecidableEq

/-- The active node-geometry capability, swapped by setOrientation. -/
inductive NodeGeometry
  | DefaultHorizontalNodeGeometry
  | DefaultVerticalNodeGeometry
deriving DecidableEq

/-- A node graphics proxy.  The tag records the identity of the allocated
object (each make_unique call yields a fresh tag), the position mirrors the
QGraphicsObject position pulled from the model. -/
structure NodeGraphicsObject where
  tag : Nat
  pos : QPointF
deriving DecidableEq

/-- A connection graphics proxy: allocation tag, its connection id, the
display color chosen through the annotation dialog (none before any
selection) and the current incoming endpoint returned by in(). -/
structure ConnectionGraphicsObject where
  tag : Nat
  connectionId : ConnectionId
  color : Option Nat
  inPoint : QPointF
deriving DecidableEq

/-- The QGraphicsTextItem label placed under a connection.  alive is false
once the scene has destroyed the underlying item (the QPointer liveness
check) while the map entry still lingers. -/
structure TextItem where
  text : String
  pos : QPointF
  alive : Bool
deriving DecidableEq

/-- Signals emitted by the scene and proxy constructions, in order. -/
inductive SceneEvent
  | modified
  | nodeMoved (nodeId : NodeId) (pos : QPointF)
  | nodeProxyCreated (nodeId : NodeId)
  | connectionProxyCreated (cid : ConnectionId)
deriving DecidableEq

/-- Entry of the vector returned by getConnections. -/
structure ConnectionInfo where
  connectionId : ConnectionId
  nodeIdOut : NodeId
  nodeIdIn : NodeId
  portTypeIn : PortType
  portTypeOut : PortType
  templateName : String
deriving DecidableEq

namespace AMap

/-- Lookup in an association list (std::unordered_map::find). -/
def find? {α β : Type} [DecidableEq α] (m : List (α × β)) (k : α) : Option β :=
  match m with
  | [] => none
  | (k', v) :: rest => if k' = k then some v else find? rest k

/-- Remove the entry for a key (std::unordered_map::erase). -/
def eraseKey {α β : Type} [DecidableEq α] (m : List (α × β)) (k : α) : List (α × β) :=
  m.filter (fun p => !(decide (p.1 = k)))

/-- Overwriting insertion (std::unordered_map::operator[] assignment). -/
def insert {α β : Type} [DecidableEq α] (m : List (α × β)) (k : α) (v : β) :
    List (α × β) :=
  (k, v) :: eraseKey m k

theorem eraseKey_cons {α β : Type} [DecidableEq α] (a : α) (b : β)
    (rest : List (α × β)) (k : α) :
    eraseKey ((a, b) :: rest) k =
      if a = k then eraseKey rest k else (a, b) :: eraseKey rest k := by
  by_cases h : a = k <;> simp [eraseKey, h]

theorem find?_eraseKey {α β : Type} [DecidableEq α] (m : List (α × β)) (k k' : α) :
    find? (eraseKey m k) k' = if k' = k then none else find? m k' := by
  induction m with
  | nil => simp [find?, eraseKey]
  | cons p rest ih =>
    obtain ⟨a, b⟩ := p
    rw [eraseKey_cons]
    by_cases hak : a = k
    · subst hak
      rw [if_pos rfl, ih]
      by_cases hk' : k' = a
      · simp [hk']
      · simp [find?, hk', show ¬ a = k' from fun h => hk' h.symm]
    · rw [if_neg hak]
      by_cases hak' : a = k'
      · subst hak'
        simp [find?, hak]
      · simp [find?, hak', ih]

theorem find?_insert {α β : Type} [DecidableEq α] (m : List (α × β)) (k k' : α) (v : β) :
    find? (insert m k v) k' = if k' = k then some v else find? m k' := by
  by_cases h : k' = k
  · subst h; simp [insert, find?]
  · have hk : ¬ k = k' := fun hh => h hh.symm
    simp [insert, find?, h, hk, find?_eraseKey]

theorem eraseKey_idem {α β : Type} [DecidableEq α] (m : List (α × β)) (k : α) :
    eraseKey (eraseKey m k) k = eraseKey m k := by
  induction m with
  | nil => rfl
  | cons p rest ih =>
    by_cases h : p.1 = k
    · simp [eraseKey, h] at ih ⊢
    · simp [eraseKey, h] at ih ⊢

theorem eraseKey_of_find?_none {α β : Type} [DecidableEq α] (m : List (α × β)) (k : α)
    (h : find? m k = none) : eraseKey m k = m := by
  induction m with
  | nil => rfl
  | cons p rest ih =>
    obtain ⟨a, b⟩ := p
    by_cases hak : a = k
    · simp [find?, hak] at h
    · simp [find?, hak] at h
      simp [eraseKey, hak] at ih ⊢
      exact ih h

theorem find?_eraseKey_self {α β : Type} [DecidableEq α] (m : List (α × β)) (k : α) :
    find? (eraseKey m k) k = none := by
  simp [find?_eraseKey]

end AMap

/-- External collaborators, read-only from the scene's point of view: the
AbstractGraphModel queries used by the handlers, the geometry-derived
incoming endpoint a ConnectionGraphicsObject exposes through in(), and the
category-to-color map getColorForHeader declared outside this file. -/
structure Env where
  allNodeIds : List NodeId
  outPortCount : NodeId → Nat
  connections : NodeId → PortIndex → List ConnectionId
  position : NodeId → QPointF
  inPoint : ConnectionId → QPointF
  getColorForHeader : String → Nat

/-- The scene state of BasicGraphicsScene: the four id-keyed registries,
the draft connection, the node-drag flag, the orientation and active
geometry, a fresh-tag allocator for constructed proxy objects, and the
event log of emitted signals and proxy constructions. -/
structure Scene where
  nodeGraphicsObjects : List (NodeId × NodeGraphicsObject)
  connectionGraphicsObjects : List (ConnectionId × ConnectionGraphicsObject)
  dialogs : List (ConnectionId × String)
  textItems : List (ConnectionId × TextItem)
  draftConnection : Option ConnectionGraphicsObject
  nodeDrag : Bool
  orientation : Orientation
  nodeGeometry : NodeGeometry
  nextTag : Nat
  events : List SceneEvent
deriving DecidableEq

/-- Append a modified(this) emission to the event log. -/
def emitModified (s : Scene) : Scene :=
  { s with events := s.events ++ [SceneEvent.modified] }

/-- Construct a fresh NodeGraphicsObject for nodeId and store it under
nodeId, overwriting any previous entry; mirrors
  nodeGraphicsObjects[nodeId] = make_unique NodeGraphicsObject(this, nodeId). -/
def createNodeGO (env : Env) (nodeId : NodeId) (s : Scene) : Scene :=
  { s with
    nodeGraphicsObjects :=
      AMap.insert s.nodeGraphicsObjects nodeId ⟨s.nextTag, env.position nodeId⟩
    nextTag := s.nextTag + 1
    events := s.events ++ [SceneEvent.nodeProxyCreated nodeId] }

/-- Construct a fresh ConnectionGraphicsObject for cid and store it under
cid, overwriting any previous entry. -/
def createConnectionGO (env : Env) (cid : ConnectionId) (s : Scene) : Scene :=
  { s with
    connectionGraphicsObjects :=
      AMap.insert s.connectionGraphicsObjects cid ⟨s.nextTag, cid, none, env.inPoint cid⟩
    nextTag := s.nextTag + 1
    events := s.events ++ [SceneEvent.connectionProxyCreated cid] }

/-- updateAttachedNodes: looks up the endpoint node proxy and repaints it;
the repaint leaves every registry untouched. -/
def updateAttachedNodes (cid : ConnectionId) (portType : PortType) (s : Scene) : Scene :=
  match AMap.find? s.nodeGraphicsObjects (getNodeId portType cid) with
  | some _ => s
  | none => s

/-- First traversal pass over a node-id list: create a NodeProxy for each. -/
def populateNodesList (env : Env) (l : List NodeId) (s : Scene) : Scene :=
  l.foldl (fun acc nodeId => createNodeGO env nodeId acc) s

/-- Inner loop of the second pass: create a ConnectionProxy for every
connection id in the given list. -/
def populateConnectionsList (env : Env) (l : List ConnectionId) (s : Scene) : Scene :=
  l.foldl (fun acc cid => createConnectionGO env cid acc) s

/-- One port of the second pass: create proxies for the outgoing
connections of (nodeId, index). -/
def populateConnectionsOfPort (env : Env) (nodeId : NodeId) (index : PortIndex)
    (s : Scene) : Scene :=
  populateConnectionsList env (env.connections nodeId index) s

/-- Loop over a list of port indexes of the second pass. -/
def populatePortsList (env : Env) (nodeId : NodeId) (ports : List PortIndex)
    (s : Scene) : Scene :=
  ports.foldl (fun acc index => populateConnectionsOfPort env nodeId index acc) s

/-- One node of the second pass: ports 0 up to OutPortCount in ascending
index order. -/
def populateConnectionsOfNode (env : Env) (nodeId : NodeId) (s : Scene) : Scene :=
  populatePortsList env nodeId (List.range (env.outPortCount nodeId)) s

/-- Second traversal pass over a node-id list. -/
def populateConnectionsAllNodes (env : Env) (l : List NodeId) (s : Scene) : Scene :=
  l.foldl (fun acc nodeId => populateConnectionsOfNode env nodeId acc) s

/-- traverseGraphAndPopulateGraphicsObjects: first create all the nodes,
then for each node check output connections and insert them. -/
def traverseGraphAndPopulateGraphicsObjects (env : Env) (s : Scene) : Scene :=
  populateConnectionsAllNodes env env.allNodeIds
    (populateNodesList env env.allNodeIds s)

/-- onModelReset: clears both proxy maps, then clear() destroys every
remaining scene item — in particular the text label items die while their
map entries linger — and the full traversal repopulates the proxies.  The
dialogs container is not touched. -/
def onModelReset (env : Env) (s : Scene) : Scene :=
  let s1 := { s with
    connectionGraphicsObjects := ([] : List (ConnectionId × ConnectionGraphicsObject))
    nodeGraphicsObjects := ([] : List (NodeId × NodeGraphicsObject))
    textItems := s.textItems.map (fun p => (p.1, { p.2 with alive := false })) }
  traverseGraphAndPopulateGraphicsObjects env s1

/-- setOrientation: when the requested orientation differs, store it, swap
the geometry capability (switch on the new orientation) and run
onModelReset; otherwise do nothing. -/
def setOrientation (env : Env) (orientation : Orientation) (s : Scene) : Scene :=
  if s.orientation ≠ orientation then
    let s1 := { s with
      orientation := orientation
      nodeGeometry :=
        match orientation with
        | .Horizontal => NodeGeometry.DefaultHorizontalNodeGeometry
        | .Vertical => NodeGeometry.DefaultVerticalNodeGeometry }
    onModelReset env s1
  else s

/-- makeDraftConnection: installs a freshly constructed
ConnectionGraphicsObject as the draft (grabMouse has no registry effect). -/
def makeDraftConnection (env : Env) (incompleteConnectionId : ConnectionId)
    (s : Scene) : Scene :=
  { s with
    draftConnection := some ⟨s.nextTag, incompleteConnectionId, none,
      env.inPoint incompleteConnectionId⟩
    nextTag := s.nextTag + 1 }

/-- resetDraftConnection: drops the draft unconditionally. -/
def resetDraftConnection (s : Scene) : Scene :=
  { s with draftConnection := none }

/-- onNodeCreated: store a fresh NodeProxy under nodeId and emit modified. -/
def onNodeCreated (env : Env) (nodeId : NodeId) (s : Scene) : Scene :=
  emitModified (createNodeGO env nodeId s)

/-- onNodeDeleted: erase the proxy and emit modified only when present. -/
def onNodeDeleted (nodeId : NodeId) (s : Scene) : Scene :=
  match AMap.find? s.nodeGraphicsObjects nodeId with
  | some _ =>
      emitModified
        { s with nodeGraphicsObjects := AMap.eraseKey s.nodeGraphicsObjects nodeId }
  | none => s

/-- onNodePositionUpdated: when the proxy exists, pull the model position
into it (setPos), repaint, and arm the node-drag flag. -/
def onNodePositionUpdated (env : Env) (nodeId : NodeId) (s : Scene) : Scene :=
  match AMap.find? s.nodeGraphicsObjects nodeId with
  | some node =>
      { s with
        nodeGraphicsObjects :=
          AMap.insert s.nodeGraphicsObjects nodeId { node with pos := env.position nodeId }
        nodeDrag := true }
  | none => s

/-- onNodeClicked: when the drag flag is armed, emit nodeMoved with the
model's current position and then modified; the flag is cleared in every
case. -/
def onNodeClicked (env : Env) (nodeId : NodeId) (s : Scene) : Scene :=
  let s1 :=
    if s.nodeDrag then
      { s with events := s.events ++
          [SceneEvent.nodeMoved nodeId (env.position nodeId), SceneEvent.modified] }
    else s
  { s1 with nodeDrag := false }

/-- onConnectionCreated: construct the connection object (its doubleClicked
signal is wired to openDialog), store it under connectionId, and repaint
both attached nodes.  No modified emission occurs here. -/
def onConnectionCreated (env : Env) (connectionId : ConnectionId) (s : Scene) : Scene :=
  updateAttachedNodes connectionId .In
    (updateAttachedNodes connectionId .Out (createConnectionGO env connectionId s))

/-- removeDialog: when a dialog entry exists, close it and erase it. -/
def removeDialog (connectionId : ConnectionId) (s : Scene) : Scene :=
  match AMap.find? s.dialogs connectionId with
  | some _ => { s with dialogs := AMap.eraseKey s.dialogs connectionId }
  | none => s

/-- Step of onConnectionDeleted erasing the connection proxy when present. -/
def eraseConnectionGO (connectionId : ConnectionId) (s : Scene) : Scene :=
  match AMap.find? s.connectionGraphicsObjects connectionId with
  | some _ =>
      { s with connectionGraphicsObjects :=
          AMap.eraseKey s.connectionGraphicsObjects connectionId }
  | none => s

/-- Step of onConnectionDeleted removing and deleting the text item when
present. -/
def eraseTextItem (connectionId : ConnectionId) (s : Scene) : Scene :=
  match AMap.find? s.textItems connectionId with
  | some _ => { s with textItems := AMap.eraseKey s.textItems connectionId }
  | none => s

/-- Step of onConnectionDeleted resetting the draft when its id matches. -/
def clearMatchingDraft (connectionId : ConnectionId) (s : Scene) : Scene :=
  match s.draftConnection with
  | some d =>
      if d.connectionId = connectionId then { s with draftConnection := none } else s
  | none => s

/-- onConnectionDeleted: erase the proxy, delete the text item, reset a
matching draft, repaint both attached nodes, remove the dialog, and emit
modified (unconditionally). -/
def onConnectionDeleted (connectionId : ConnectionId) (s : Scene) : Scene :=
  emitModified
    (removeDialog connectionId
      (updateAttachedNodes connectionId .In
        (updateAttachedNodes connectionId .Out
          (clearMatchingDraft connectionId
            (eraseTextItem connectionId
              (eraseConnectionGO connectionId s))))))

/-- openDialog: creates and stores a dialog with an empty template name
when none exists for connectionId, then shows it and emits modified. -/
def openDialog (connectionId : ConnectionId) (s : Scene) : Scene :=
  let s1 :=
    match AMap.find? s.dialogs connectionId with
    | none => { s with dialogs := AMap.insert s.dialogs connectionId "" }
    | some _ => s
  emitModified s1

/-- addTextUnderConnection: when the connection proxy exists, place a text
item at its incoming endpoint shifted 50 to the left and 1 down, store it
under connectionId, and wire the positionChanged follower. -/
def addTextUnderConnection (connectionId : ConnectionId) (templateText : String)
    (s : Scene) : Scene :=
  match AMap.find? s.connectionGraphicsObjects connectionId with
  | some connectionObject =>
      let inPoint := connectionObject.inPoint
      let textPosition : QPointF := ⟨inPoint.x - 50, inPoint.y + 1⟩
      { s with textItems :=
          AMap.insert s.textItems connectionId ⟨templateText, textPosition, true⟩ }
  | none => s

/-- The lambda connected to ConnectionGraphicsObject.positionChanged in
addTextUnderConnection: when the captured QPointer still refers to a live
text item, recompute its position from the connection object's current
incoming endpoint; otherwise do nothing.  (The captured connection object
is alive whenever the callback can fire, since destroying it severs the
signal connection.) -/
def textItemPositionChanged (connectionId : ConnectionId) (s : Scene) : Scene :=
  match AMap.find? s.textItems connectionId with
  | some item =>
      if item.alive then
        match AMap.find? s.connectionGraphicsObjects connectionId with
        | some connectionObject =>
            { s with textItems :=
                (AMap.insert s.textItems connectionId
                  { item with pos := ⟨connectionObject.inPoint.x - 50,
                                      connectionObject.inPoint.y + 1⟩ }) }
        | none => s
      else s
  | none => s

/-- The OK-button handler of the annotation dialog: with a selected entry,
store the chosen template under connectionId, color the connection proxy
with getColorForHeader, repaint it, and place the label text; with no
selection the dialog merely closes. -/
def okButtonClicked (env : Env) (connectionId : ConnectionId)
    (selected : Option String) (s : Scene) : Scene :=
  match selected with
  | some selectedTemplate =>
      let s1 := { s with dialogs := AMap.insert s.dialogs connectionId selectedTemplate }
      let s2 :=
        match AMap.find? s1.connectionGraphicsObjects connectionId with
        | some connectionObject =>
            { s1 with connectionGraphicsObjects :=
                (AMap.insert s1.connectionGraphicsObjects connectionId
                  { connectionObject with
                    color := some (env.getColorForHeader selectedTemplate) }) }
        | none => s1
      addTextUnderConnection connectionId selectedTemplate s2
  | none => s

/-- getConnections: one ConnectionInfo per dialog entry, its node ids taken
from the ConnectionId composite, its port directions fixed, and the stored
template name copied over. -/
def getConnections (s : Scene) : List ConnectionInfo :=
  s.dialogs.map (fun p =>
    { connectionId := p.1
      nodeIdOut := p.1.outNodeId
      nodeIdIn := p.1.inNodeId
      portTypeIn := PortType.In
      portTypeOut := PortType.Out
      templateName := p.2 })

/-- Connection ids enumerated by the second traversal pass for one node:
its ports in ascending index order, each port's outgoing connections in
model order. -/
def outgoingConnectionIds (env : Env) (nodeId : NodeId) : List ConnectionId :=
  ((List.range (env.outPortCount nodeId)).map (fun index => env.connections nodeId index)).flatten

/-- Connection ids enumerated by the whole second pass, in traversal order. -/
def allOutgoingConnectionIds (env : Env) : List ConnectionId :=
  (env.allNodeIds.map (fun nodeId => outgoingConnectionIds env nodeId)).flatten

/-- The geometry implementation selected by the switch in setOrientation. -/
def geometryFor : Orientation → NodeGeometry
  | .Horizontal => .DefaultHorizontalNodeGeometry
  | .Vertical => .DefaultVerticalNodeGeometry

/-- Effect of the draft-reset step of onConnectionDeleted on the draft slot. -/
def clearDraftOpt (cid : ConnectionId) :
    Option ConnectionGraphicsObject → Option ConnectionGraphicsObject
  | some d => if d.connectionId = cid then none else some d
  | none => none

theorem updateAttachedNodes_eq (cid : ConnectionId) (portType : PortType) (s : Scene) :
    updateAttachedNodes cid portType s = s := by
  unfold updateAttachedNodes
  cases AMap.find? s.nodeGraphicsObjects (getNodeId portType cid) <;> rfl

theorem eraseConnectionGO_eq (cid : ConnectionId) (s : Scene) :
    eraseConnectionGO cid s =
      { s with connectionGraphicsObjects :=
          AMap.eraseKey s.connectionGraphicsObjects cid } := by
  unfold eraseConnectionGO
  cases h : AMap.find? s.connectionGraphicsObjects cid with
  | some _ => rfl
  | none =>
      rw [AMap.eraseKey_of_find?_none _ _ h]

theorem eraseTextItem_eq (cid : ConnectionId) (s : Scene) :
    eraseTextItem cid s = { s with textItems := AMap.eraseKey s.textItems cid } := by
  unfold eraseTextItem
  cases h : AMap.find? s.textItems cid with
  | some _ => rfl
  | none => rw [AMap.eraseKey_of_find?_none _ _ h]

theorem removeDialog_eq (cid : ConnectionId) (s : Scene) :
    removeDialog cid s = { s with dialogs := AMap.eraseKey s.dialogs cid } := by
  unfold removeDialog
  cases h : AMap.find? s.dialogs cid with
  | some _ => rfl
  | none => rw [AMap.eraseKey_of_find?_none _ _ h]

theorem clearMatchingDraft_eq (cid : ConnectionId) (s : Scene) :
    clearMatchingDraft cid s =
      { s with draftConnection := clearDraftOpt cid s.draftConnection } := by
  unfold clearMatchingDraft
  cases h : s.draftConnection with
  | none =>
      simp only [h, clearDraftOpt]
      rw [← h]
  | some d =>
      by_cases hd : d.connectionId = cid
      · simp only [h, clearDraftOpt, hd, if_true]
      · simp only [h, clearDraftOpt, hd, if_false]
        rw [← h]

/-- Normal form of onConnectionDeleted: all four registries lose their
entry for the deleted id, a matching draft is dropped, and one modified
emission is appended. -/
theorem onConnectionDeleted_eq (cid : ConnectionId) (s : Scene) :
    onConnectionDeleted cid s =
      { s with
        connectionGraphicsObjects := AMap.eraseKey s.connectionGraphicsObjects cid
        textItems := AMap.eraseKey s.textItems cid
        draftConnection := clearDraftOpt cid s.draftConnection
        dialogs := AMap.eraseKey s.dialogs cid
        events := s.events ++ [SceneEvent.modified] } := by
  unfold onConnectionDeleted
  rw [eraseConnectionGO_eq, eraseTextItem_eq, clearMatchingDraft_eq,
    updateAttachedNodes_eq, updateAttachedNodes_eq, removeDialog_eq]
  rfl

theorem clearDraftOpt_idem (cid : ConnectionId) (o : Option ConnectionGraphicsObject) :
    clearDraftOpt cid (clearDraftOpt cid o) = clearDraftOpt cid o := by
  cases o with
  | none => rfl
  | some d =>
      by_cases h : d.connectionId = cid <;> simp [clearDraftOpt, h]

theorem populateNodesList_nil (env : Env) (s : Scene) :
    populateNodesList env [] s = s := rfl

theorem populateNodesList_cons (env : Env) (a : NodeId) (l : List NodeId) (s : Scene) :
    populateNodesList env (a :: l) s = populateNodesList env l (createNodeGO env a s) := rfl

theorem populateNodesList_fixed (env : Env) (l : List NodeId) (s : Scene) :
    (populateNodesList env l s).connectionGraphicsObjects = s.connectionGraphicsObjects ∧
    (populateNodesList env l s).dialogs = s.dialogs ∧
    (populateNodesList env l s).textItems = s.textItems ∧
    (populateNodesList env l s).draftConnection = s.draftConnection ∧
    (populateNodesList env l s).nodeDrag = s.nodeDrag ∧
    (populateNodesList env l s).orientation = s.orientation ∧
    (populateNodesList env l s).nodeGeometry = s.nodeGeometry := by
  induction l generalizing s with
  | nil => exact ⟨rfl, rfl, rfl, rfl, rfl, rfl, rfl⟩
  | cons a l ih => exact ih (createNodeGO env a s)

theorem populateNodesList_events (env : Env) (l : List NodeId) (s : Scene) :
    (populateNodesList env l s).events =
      s.events ++ l.map SceneEvent.nodeProxyCreated := by
  induction l generalizing s with
  | nil => simp [populateNodesList]
  | cons a l ih =>
    rw [populateNodesList_cons, ih]
    simp [createNodeGO]

theorem populateNodesList_find?_mono (env : Env) (l : List NodeId) (s : Scene)
    (nodeId : NodeId) (h : (AMap.find? s.nodeGraphicsObjects nodeId).isSome) :
    (AMap.find? (populateNodesList env l s).nodeGraphicsObjects nodeId).isSome := by
  induction l generalizing s with
  | nil => exact h
  | cons a l ih =>
    rw [populateNodesList_cons]
    apply ih
    by_cases hid : nodeId = a
    · simp [createNodeGO, AMap.find?_insert, hid]
    · simpa [createNodeGO, AMap.find?_insert, hid] using h

theorem populateNodesList_find?_mem (env : Env) (l : List NodeId) (nodeId : NodeId) :
    ∀ s : Scene, nodeId ∈ l →
      (AMap.find? (populateNodesList env l s).nodeGraphicsObjects nodeId).isSome := by
  induction l with
  | nil => intro s h; cases h
  | cons a l ih =>
    intro s h
    rw [populateNodesList_cons]
    rcases List.mem_cons.mp h with h1 | h2
    · subst h1
      apply populateNodesList_find?_mono
      simp [createNodeGO, AMap.find?_insert]
    · exact ih (createNodeGO env a s) h2

theorem populateConnectionsList_nil (env : Env) (s : Scene) :
    populateConnectionsList env [] s = s := rfl

theorem populateConnectionsList_cons (env : Env) (a : ConnectionId)
    (l : List ConnectionId) (s : Scene) :
    populateConnectionsList env (a :: l) s =
      populateConnectionsList env l (createConnectionGO env a s) := rfl

theorem populateConnectionsList_fixed (env : Env) (l : List ConnectionId) (s : Scene) :
    (populateConnectionsList env l s).nodeGraphicsObjects = s.nodeGraphicsObjects ∧
    (populateConnectionsList env l s).dialogs = s.dialogs ∧
    (populateConnectionsList env l s).textItems = s.textItems ∧
    (populateConnectionsList env l s).draftConnection = s.draftConnection ∧
    (populateConnectionsList env l s).nodeDrag = s.nodeDrag ∧
    (populateConnectionsList env l s).orientation = s.orientation ∧
    (populateConnectionsList env l s).nodeGeometry = s.nodeGeometry := by
  induction l generalizing s with
  | nil => exact ⟨rfl, rfl, rfl, rfl, rfl, rfl, rfl⟩
  | cons a l ih => exact ih (createConnectionGO env a s)

theorem populateConnectionsList_events (env : Env) (l : List ConnectionId) (s : Scene) :
    (populateConnectionsList env l s).events =
      s.events ++ l.map SceneEvent.connectionProxyCreated := by
  induction l generalizing s with
  | nil => simp [populateConnectionsList]
  | cons a l ih =>
    rw [populateConnectionsList_cons, ih]
    simp [createConnectionGO]

theorem populateConnectionsList_find?_mono (env : Env) (l : List ConnectionId)
    (s : Scene) (cid : ConnectionId)
    (h : (AMap.find? s.connectionGraphicsObjects cid).isSome) :
    (AMap.find? (populateConnectionsList env l s).connectionGraphicsObjects cid).isSome := by
  induction l generalizing s with
  | nil => exact h
  | cons a l ih =>
    rw [populateConnectionsList_cons]
    apply ih
    by_cases hid : cid = a
    · simp [createConnectionGO, AMap.find?_insert, hid]
    · simpa [createConnectionGO, AMap.find?_insert, hid] using h

theorem populateConnectionsList_find?_mem (env : Env) (l : List ConnectionId)
    (cid : ConnectionId) :
    ∀ s : Scene, cid ∈ l →
      (AMap.find? (populateConnectionsList env l s).connectionGraphicsObjects cid).isSome := by
  induction l with
  | nil => intro s h; cases h
  | cons a l ih =>
    intro s h
    rw [populateConnectionsList_cons]
    rcases List.mem_cons.mp h with h1 | h2
    · subst h1
      apply populateConnectionsList_find?_mono
      simp [createConnectionGO, AMap.find?_insert]
    · exact ih (createConnectionGO env a s) h2

theorem populatePortsList_nil (env : Env) (nodeId : NodeId) (s : Scene) :
    populatePortsList env nodeId [] s = s := rfl

theorem populatePortsList_cons (env : Env) (nodeId : NodeId) (a : PortIndex)
    (ports : List PortIndex) (s : Scene) :
    populatePortsList env nodeId (a :: ports) s =
      populatePortsList env nodeId ports (populateConnectionsOfPort env nodeId a s) := rfl

theorem populatePortsList_fixed (env : Env) (nodeId : NodeId) (ports : List PortIndex)
    (s : Scene) :
    (populatePortsList env nodeId ports s).nodeGraphicsObjects = s.nodeGraphicsObjects ∧
    (populatePortsList env nodeId ports s).dialogs = s.dialogs ∧
    (populatePortsList env nodeId ports s).textItems = s.textItems ∧
    (populatePortsList env nodeId ports s).draftConnection = s.draftConnection ∧
    (populatePortsList env nodeId ports s).nodeDrag = s.nodeDrag ∧
    (populatePortsList env nodeId ports s).orientation = s.orientation ∧
    (populatePortsList env nodeId ports s).nodeGeometry = s.nodeGeometry := by
  induction ports generalizing s with
  | nil => exact ⟨rfl, rfl, rfl, rfl, rfl, rfl, rfl⟩
  | cons a ports ih =>
    rw [populatePortsList_cons]
    have h1 := ih (populateConnectionsOfPort env nodeId a s)
    have h2 := populateConnectionsList_fixed env (env.connections nodeId a) s
    unfold populateConnectionsOfPort at h1
    exact ⟨h1.1.trans h2.1, h1.2.1.trans h2.2.1, h1.2.2.1.trans h2.2.2.1,
      h1.2.2.2.1.trans h2.2.2.2.1, h1.2.2.2.2.1.trans h2.2.2.2.2.1,
      h1.2.2.2.2.2.1.trans h2.2.2.2.2.2.1, h1.2.2.2.2.2.2.trans h2.2.2.2.2.2.2⟩

theorem populatePortsList_events (env : Env) (nodeId : NodeId) (ports : List PortIndex)
    (s : Scene) :
    (populatePortsList env nodeId ports s).events =
      s.events ++
        ((ports.map (fun index => env.connections nodeId index)).flatten).map
          SceneEvent.connectionProxyCreated := by
  induction ports generalizing s with
  | nil => simp [populatePortsList]
  | cons a ports ih =>
    rw [populatePortsList_cons, ih]
    unfold populateConnectionsOfPort
    rw [populateConnectionsList_events]
    simp [List.append_assoc]

theorem populatePortsList_find?_mono (env : Env) (nodeId : NodeId)
    (ports : List PortIndex) (s : Scene) (cid : ConnectionId)
    (h : (AMap.find? s.connectionGraphicsObjects cid).isSome) :
    (AMap.find? (populatePortsList env nodeId ports s).connectionGraphicsObjects
      cid).isSome := by
  induction ports generalizing s with
  | nil => exact h
  | cons a ports ih =>
    rw [populatePortsList_cons]
    exact ih _ (populateConnectionsList_find?_mono env _ s cid h)

theorem populatePortsList_find?_mem (env : Env) (nodeId : NodeId)
    (ports : List PortIndex) (cid : ConnectionId) :
    ∀ (s : Scene) (index : PortIndex), index ∈ ports →
      cid ∈ env.connections nodeId index →
      (AMap.find? (populatePortsList env nodeId ports s).connectionGraphicsObjects
        cid).isSome := by
  induction ports with
  | nil => intro s index h; cases h
  | cons a ports ih =>
    intro s index h hc
    rw [populatePortsList_cons]
    rcases List.mem_cons.mp h with h1 | h2
    · subst h1
      apply populatePortsList_find?_mono
      exact populateConnectionsList_find?_mem env _ cid s hc
    · exact ih (populateConnectionsOfPort env nodeId a s) index h2 hc

theorem populateConnectionsAllNodes_nil (env : Env) (s : Scene) :
    populateConnectionsAllNodes env [] s = s := rfl

theorem populateConnectionsAllNodes_cons (env : Env) (a : NodeId) (l : List NodeId)
    (s : Scene) :
    populateConnectionsAllNodes env (a :: l) s =
      populateConnectionsAllNodes env l (populateConnectionsOfNode env a s) := rfl

theorem populateConnectionsAllNodes_fixed (env : Env) (l : List NodeId) (s : Scene) :
    (populateConnectionsAllNodes env l s).nodeGraphicsObjects = s.nodeGraphicsObjects ∧
    (populateConnectionsAllNodes env l s).dialogs = s.dialogs ∧
    (populateConnectionsAllNodes env l s).textItems = s.textItems ∧
    (populateConnectionsAllNodes env l s).draftConnection = s.draftConnection ∧
    (populateConnectionsAllNodes env l s).nodeDrag = s.nodeDrag ∧
    (populateConnectionsAllNodes env l s).orientation = s.orientation ∧
    (populateConnectionsAllNodes env l s).nodeGeometry = s.nodeGeometry := by
  induction l generalizing s with
  | nil => exact ⟨rfl, rfl, rfl, rfl, rfl, rfl, rfl⟩
  | cons a l ih =>
    rw [populateConnectionsAllNodes_cons]
    have h1 := ih (populateConnectionsOfNode env a s)
    have h2 := populatePortsList_fixed env a (List.range (env.outPortCount a)) s
    unfold populateConnectionsOfNode at h1
    exact ⟨h1.1.trans h2.1, h1.2.1.trans h2.2.1, h1.2.2.1.trans h2.2.2.1,
      h1.2.2.2.1.trans h2.2.2.2.1, h1.2.2.2.2.1.trans h2.2.2.2.2.1,
      h1.2.2.2.2.2.1.trans h2.2.2.2.2.2.1, h1.2.2.2.2.2.2.trans h2.2.2.2.2.2.2⟩

theorem populateConnectionsAllNodes_events (env : Env) (l : List NodeId) (s : Scene) :
    (populateConnectionsAllNodes env l s).events =
      s.events ++
        ((l.map (fun nodeId => outgoingConnectionIds env nodeId)).flatten).map
          SceneEvent.connectionProxyCreated := by
  induction l generalizing s with
  | nil => simp [populateConnectionsAllNodes]
  | cons a l ih =>
    rw [populateConnectionsAllNodes_cons, ih]
    unfold populateConnectionsOfNode
    rw [populatePortsList_events]
    simp [outgoingConnectionIds, List.append_assoc]

theorem populateConnectionsAllNodes_find?_mono (env : Env) (l : List NodeId)
    (s : Scene) (cid : ConnectionId)
    (h : (AMap.find? s.connectionGraphicsObjects cid).isSome) :
    (AMap.find? (populateConnectionsAllNodes env l s).connectionGraphicsObjects
      cid).isSome := by
  induction l generalizing s with
  | nil => exact h
  | cons a l ih =>
    rw [populateConnectionsAllNodes_cons]
    apply ih
    unfold populateConnectionsOfNode
    exact populatePortsList_find?_mono env a _ s cid h

theorem populateConnectionsAllNodes_find?_mem (env : Env) (l : List NodeId)
    (cid : ConnectionId) :
    ∀ (s : Scene) (nodeId : NodeId), nodeId ∈ l →
      cid ∈ outgoingConnectionIds env nodeId →
      (AMap.find? (populateConnectionsAllNodes env l s).connectionGraphicsObjects
        cid).isSome := by
  induction l with
  | nil => intro s nodeId h; cases h
  | cons a l ih =>
    intro s nodeId h hc
    rw [populateConnectionsAllNodes_cons]
    rcases List.mem_cons.mp h with h1 | h2
    · subst h1
      apply populateConnectionsAllNodes_find?_mono
      unfold outgoingConnectionIds at hc
      rw [List.mem_flatten] at hc
      obtain ⟨sub, hsub, hmem⟩ := hc
      rw [List.mem_map] at hsub
      obtain ⟨index, hrange, rfl⟩ := hsub
      exact populatePortsList_find?_mem env nodeId _ cid s index hrange hmem
    · exact ih (populateConnectionsOfNode env a s) nodeId h2 hc

/-- The full traversal appends the first-pass node creations, in the
model's enumeration order, followed by all second-pass connection
creations, in node-then-port-then-connection order. -/
theorem traverse_events (env : Env) (s : Scene) :
    (traverseGraphAndPopulateGraphicsObjects env s).events =
      s.events ++ env.allNodeIds.map SceneEvent.nodeProxyCreated ++
        (allOutgoingConnectionIds env).map SceneEvent.connectionProxyCreated := by
  unfold traverseGraphAndPopulateGraphicsObjects allOutgoingConnectionIds
  rw [populateConnectionsAllNodes_events, populateNodesList_events]

theorem traverse_node_find? (env : Env) (s : Scene) (nodeId : NodeId)
    (h : nodeId ∈ env.allNodeIds) :
    (AMap.find?
      (traverseGraphAndPopulateGraphicsObjects env s).nodeGraphicsObjects
      nodeId).isSome := by
  unfold traverseGraphAndPopulateGraphicsObjects
  rw [(populateConnectionsAllNodes_fixed env env.allNodeIds _).1]
  exact populateNodesList_find?_mem env env.allNodeIds nodeId s h

theorem traverse_connection_find? (env : Env) (s : Scene) (nodeId : NodeId)
    (cid : ConnectionId) (h : nodeId ∈ env.allNodeIds)
    (hc : cid ∈ outgoingConnectionIds env nodeId) :
    (AMap.find?
      (traverseGraphAndPopulateGraphicsObjects env s).connectionGraphicsObjects
      cid).isSome := by
  unfold traverseGraphAndPopulateGraphicsObjects
  exact populateConnectionsAllNodes_find?_mem env env.allNodeIds cid _ nodeId h hc

theorem traverse_fixed (env : Env) (s : Scene) :
    (traverseGraphAndPopulateGraphicsObjects env s).dialogs = s.dialogs ∧
    (traverseGraphAndPopulateGraphicsObjects env s).textItems = s.textItems ∧
    (traverseGraphAndPopulateGraphicsObjects env s).draftConnection = s.draftConnection ∧
    (traverseGraphAndPopulateGraphicsObjects env s).nodeDrag = s.nodeDrag ∧
    (traverseGraphAndPopulateGraphicsObjects env s).orientation = s.orientation ∧
    (traverseGraphAndPopulateGraphicsObjects env s).nodeGeometry = s.nodeGeometry := by
  unfold traverseGraphAndPopulateGraphicsObjects
  have h1 := populateConnectionsAllNodes_fixed env env.allNodeIds
    (populateNodesList env env.allNodeIds s)
  have h2 := populateNodesList_fixed env env.allNodeIds s
  exact ⟨h1.2.1.trans h2.2.1, h1.2.2.1.trans h2.2.2.1,
    h1.2.2.2.1.trans h2.2.2.2.1, h1.2.2.2.2.1.trans h2.2.2.2.2.1,
    h1.2.2.2.2.2.1.trans h2.2.2.2.2.2.1, h1.2.2.2.2.2.2.trans h2.2.2.2.2.2.2⟩

/-- onModelReset never touches the dialogs container. -/
theorem onModelReset_dialogs (env : Env) (s : Scene) :
    (onModelReset env s).dialogs = s.dialogs := by
  unfold onModelReset
  exact (traverse_fixed env _).1

/-- onModelReset keeps every text-label map entry, merely marking the
underlying scene item destroyed. -/
theorem onModelReset_textItems (env : Env) (s : Scene) :
    (onModelReset env s).textItems =
      s.textItems.map (fun p => (p.1, { p.2 with alive := false })) := by
  unfold onModelReset
  exact (traverse_fixed env _).2.1

theorem onModelReset_fixed (env : Env) (s : Scene) :
    (onModelReset env s).draftConnection = s.draftConnection ∧
    (onModelReset env s).orientation = s.orientation ∧
    (onModelReset env s).nodeGeometry = s.nodeGeometry := by
  unfold onModelReset
  have h := traverse_fixed env
    { s with
      connectionGraphicsObjects := ([] : List (ConnectionId × ConnectionGraphicsObject))
      nodeGraphicsObjects := ([] : List (NodeId × NodeGraphicsObject))
      textItems := s.textItems.map (fun p => (p.1, { p.2 with alive := false })) }
  exact ⟨h.2.2.1, h.2.2.2.2.1, h.2.2.2.2.2⟩

theorem onModelReset_node_find? (env : Env) (s : Scene) (nodeId : NodeId)
    (h : nodeId ∈ env.allNodeIds) :
    (AMap.find? (onModelReset env s).nodeGraphicsObjects nodeId).isSome := by
  unfold onModelReset
  exact traverse_node_find? env _ nodeId h

theorem onModelReset_connection_find? (env : Env) (s : Scene) (nodeId : NodeId)
    (cid : ConnectionId) (h : nodeId ∈ env.allNodeIds)
    (hc : cid ∈ outgoingConnectionIds env nodeId) :
    (AMap.find? (onModelReset env s).connectionGraphicsObjects cid).isSome := by
  unfold onModelReset
  exact traverse_connection_find? env _ nodeId cid h hc

/-- Concrete connection id used by the example model: from node 0 port 0
into node 2 port 0. -/
def cAC : ConnectionId := ⟨0, 0, 2, 0⟩

/-- Example model of the spec's traversal-order test: nodes 0, 1, 2 in
that enumeration order and a single connection from node 0 port 0 to
node 2 port 0. -/
def envABC : Env :=
  { allNodeIds := [0, 1, 2]
    outPortCount := fun _ => 1
    connections := fun nodeId index =>
      if nodeId = 0 ∧ index = 0 then [cAC] else []
    position := fun nodeId => ⟨Int.ofNat nodeId, 0⟩
    inPoint := fun _ => ⟨100, 20⟩
    getColorForHeader := fun _ => 0 }

/-- Model with no nodes and no connections. -/
def envEmpty : Env :=
  { allNodeIds := []
    outPortCount := fun _ => 0
    connections := fun _ _ => []
    position := fun _ => ⟨0, 0⟩
    inPoint := fun _ => ⟨0, 0⟩
    getColorForHeader := fun _ => 0 }

/-- A fresh scene with empty registries. -/
def scene0 : Scene :=
  { nodeGraphicsObjects := []
    connectionGraphicsObjects := []
    dialogs := []
    textItems := []
    draftConnection := none
    nodeDrag := false
    orientation := Orientation.Horizontal
    nodeGeometry := NodeGeometry.DefaultHorizontalNodeGeometry
    nextTag := 0
    events := [] }

/-- Scene holding one node proxy for node 0 (allocation tag 0). -/
def sceneNode0 : Scene :=
  { scene0 with
    nodeGraphicsObjects := [(0, ⟨0, ⟨0, 0⟩⟩)]
    nextTag := 1 }

/-- Scene holding a connection proxy, an open dialog and a live label for
cAC. -/
def sceneConnAC : Scene :=
  { scene0 with
    connectionGraphicsObjects := [(cAC, ⟨0, cAC, none, ⟨100, 20⟩⟩)]
    dialogs := [(cAC, "")]
    textItems := [(cAC, ⟨"Header1", ⟨50, 21⟩, true⟩)]
    nextTag := 1 }

theorem onNodeDeleted_absent (nodeId : NodeId) (s : Scene)
    (h : AMap.find? s.nodeGraphicsObjects nodeId = none) :
    onNodeDeleted nodeId s = s := by
  unfold onNodeDeleted
  rw [h]

theorem onNodeDeleted_find?_self (nodeId : NodeId) (s : Scene) :
    AMap.find? (onNodeDeleted nodeId s).nodeGraphicsObjects nodeId = none := by
  unfold onNodeDeleted
  cases h : AMap.find? s.nodeGraphicsObjects nodeId with
  | none => exact h
  | some _ =>
      simpa [emitModified] using
        AMap.find?_eraseKey_self s.nodeGraphicsObjects nodeId

/-- Claim C1, as the spec states it, is false on the code: at a scene that
already holds a NodeProxy for node 0, onNodeCreated(0) replaces the stored
proxy with a freshly constructed one, so the stored entry does not stay
unchanged. -/
theorem C1_counterexample :
    ¬ (AMap.find? (onNodeCreated envABC 0 sceneNode0).nodeGraphicsObjects 0 =
        AMap.find? sceneNode0.nodeGraphicsObjects 0) := by
  decide

/-- Claim C1 (amended): a redundant creation notification does not skip
re-creation.  onNodeCreated(id) on a scene already holding a NodeProxy for
id, and onConnectionCreated(id) on a scene already holding a
ConnectionProxy for id, unconditionally construct a fresh proxy (tagged
with the scene's next allocation tag) and overwrite the stored entry; the
id stays mapped and entries of every other id are untouched. -/
theorem C1_redundant_creation_recreates (env : Env) (nodeId : NodeId)
    (cid : ConnectionId) (s t : Scene)
    (hn : (AMap.find? s.nodeGraphicsObjects nodeId).isSome)
    (hc : (AMap.find? t.connectionGraphicsObjects cid).isSome) :
    AMap.find? (onNodeCreated env nodeId s).nodeGraphicsObjects nodeId =
      some ⟨s.nextTag, env.position nodeId⟩ ∧
    (∀ nodeId2, ¬ nodeId2 = nodeId →
      AMap.find? (onNodeCreated env nodeId s).nodeGraphicsObjects nodeId2 =
        AMap.find? s.nodeGraphicsObjects nodeId2) ∧
    AMap.find? (onConnectionCreated env cid t).connectionGraphicsObjects cid =
      some ⟨t.nextTag, cid, none, env.inPoint cid⟩ ∧
    (∀ cid2, ¬ cid2 = cid →
      AMap.find? (onConnectionCreated env cid t).connectionGraphicsObjects cid2 =
        AMap.find? t.connectionGraphicsObjects cid2) := by
  refine ⟨?_, ?_, ?_, ?_⟩
  · simp [onNodeCreated, emitModified, createNodeGO, AMap.find?_insert]
  · intro nodeId2 h2
    simp [onNodeCreated, emitModified, createNodeGO, AMap.find?_insert, h2]
  · simp [onConnectionCreated, updateAttachedNodes_eq, createConnectionGO,
      AMap.find?_insert]
  · intro cid2 h2
    simp [onConnectionCreated, updateAttachedNodes_eq, createConnectionGO,
      AMap.find?_insert, h2]

/-- Witness for C1_redundant_creation_recreates at concrete scenes holding
the respective proxies. -/
theorem C1_witness :
    ((AMap.find? sceneNode0.nodeGraphicsObjects 0).isSome ∧
     (AMap.find? sceneConnAC.connectionGraphicsObjects cAC).isSome) ∧
    AMap.find? (onNodeCreated envABC 0 sceneNode0).nodeGraphicsObjects 0 =
      some ⟨1, ⟨0, 0⟩⟩ ∧
    AMap.find?
      (onConnectionCreated envABC cAC sceneConnAC).connectionGraphicsObjects cAC =
      some ⟨1, cAC, none, ⟨100, 20⟩⟩ := by
  have h := C1_redundant_creation_recreates envABC 0 cAC sceneNode0 sceneConnAC
    (by decide) (by decide)
  exact ⟨⟨by decide, by decide⟩, h.1, h.2.2.1⟩

/-- Claim C2, as the spec states it, is false on the code: after
onModelReset on an empty model, the connection proxy for cAC is gone while
its dialog entry and its label entry are still present. -/
theorem C2_counterexample :
    AMap.find? (onModelReset envEmpty sceneConnAC).connectionGraphicsObjects cAC =
      none ∧
    AMap.find? (onModelReset envEmpty sceneConnAC).dialogs cAC = some "" ∧
    ¬ AMap.find? (onModelReset envEmpty sceneConnAC).textItems cAC = none := by
  refine ⟨rfl, rfl, ?_⟩
  decide

/-- Claim C2 (amended): onConnectionDeleted(id) does tear down the dialog
entry and the label entry together with the connection proxy — afterwards
none of the three registries holds an entry for id.  onModelReset,
however, clears only the two proxy maps: it leaves every dialog entry in
place and keeps every label map entry (only marking the underlying scene
item destroyed), so after a reset a dialog or label entry may refer to a
connection absent from the proxy registry. -/
theorem C2_teardown_and_reset (cid : ConnectionId) (s : Scene) (env : Env) :
    AMap.find? (onConnectionDeleted cid s).connectionGraphicsObjects cid = none ∧
    AMap.find? (onConnectionDeleted cid s).dialogs cid = none ∧
    AMap.find? (onConnectionDeleted cid s).textItems cid = none ∧
    (onModelReset env s).dialogs = s.dialogs ∧
    (onModelReset env s).textItems =
      s.textItems.map (fun p => (p.1, { p.2 with alive := false })) := by
  rw [onConnectionDeleted_eq]
  exact ⟨AMap.find?_eraseKey_self _ _, AMap.find?_eraseKey_self _ _,
    AMap.find?_eraseKey_self _ _, onModelReset_dialogs env s,
    onModelReset_textItems env s⟩

/-- Claim C3, as the spec states it, is false on the code:
onConnectionCreated emits no modified notification. -/
theorem C3_counterexample :
    ¬ SceneEvent.modified ∈ (onConnectionCreated envABC cAC scene0).events := by
  decide

/-- Claim C3 (amended): onNodeCreated and onConnectionDeleted always emit
modified, onNodeDeleted emits modified exactly when the proxy existed, and
onConnectionCreated emits no modified notification at all. -/
theorem C3_modified_emissions (env : Env) (nodeId : NodeId) (cid : ConnectionId)
    (s : Scene) :
    (onNodeCreated env nodeId s).events =
      s.events ++ [SceneEvent.nodeProxyCreated nodeId, SceneEvent.modified] ∧
    (onNodeDeleted nodeId s).events =
      (if (AMap.find? s.nodeGraphicsObjects nodeId).isSome then
        s.events ++ [SceneEvent.modified]
       else s.events) ∧
    (onConnectionDeleted cid s).events = s.events ++ [SceneEvent.modified] ∧
    (onConnectionCreated env cid s).events =
      s.events ++ [SceneEvent.connectionProxyCreated cid] := by
  refine ⟨?_, ?_, ?_, ?_⟩
  · simp [onNodeCreated, emitModified, createNodeGO]
  · unfold onNodeDeleted
    cases h : AMap.find? s.nodeGraphicsObjects nodeId with
    | none => simp [h]
    | some _ => simp [h, emitModified]
  · rw [onConnectionDeleted_eq]
  · simp [onConnectionCreated, updateAttachedNodes_eq, createConnectionGO]

/-- Claim C4: setOrientation with the already-active value is a complete
no-op (the scene state, in particular both proxy maps, is unchanged);
with the other value it stores the new orientation, swaps the geometry
capability to the matching implementation and runs the full reset
protocol, clearing and repopulating both proxy maps so that every node id
enumerated by the model and every connection id found on an outgoing port
has a proxy afterwards. -/
theorem C4_setOrientation (env : Env) (v : Orientation) (s : Scene) :
    (v = s.orientation → setOrientation env v s = s) ∧
    (¬ v = s.orientation →
      (setOrientation env v s).orientation = v ∧
      (setOrientation env v s).nodeGeometry = geometryFor v ∧
      setOrientation env v s =
        onModelReset env { s with orientation := v, nodeGeometry := geometryFor v } ∧
      (∀ nodeId ∈ env.allNodeIds,
        (AMap.find? (setOrientation env v s).nodeGraphicsObjects nodeId).isSome) ∧
      (∀ nodeId ∈ env.allNodeIds, ∀ cid ∈ outgoingConnectionIds env nodeId,
        (AMap.find? (setOrientation env v s).connectionGraphicsObjects cid).isSome)) := by
  constructor
  · intro h
    subst h
    simp [setOrientation]
  · intro h
    have hne : s.orientation ≠ v := fun e => h e.symm
    have hif : setOrientation env v s =
        onModelReset env { s with orientation := v, nodeGeometry := geometryFor v } := by
      unfold setOrientation
      rw [if_pos hne]
      cases v <;> rfl
    refine ⟨?_, ?_, hif, ?_, ?_⟩
    · rw [hif]
      exact (onModelReset_fixed env _).2.1
    · rw [hif]
      exact (onModelReset_fixed env _).2.2
    · intro nodeId hmem
      rw [hif]
      exact onModelReset_node_find? env _ nodeId hmem
    · intro nodeId hmem cid hcid
      rw [hif]
      exact onModelReset_connection_find? env _ nodeId cid hmem hcid

/-- Witness for C4_setOrientation: switching the example scene from
Horizontal to Vertical repopulates node 0 and the connection cAC, and
calling it again with the active value leaves the scene unchanged. -/
theorem C4_witness :
    (¬ Orientation.Vertical = scene0.orientation) ∧
    (setOrientation envABC Orientation.Vertical scene0).orientation =
      Orientation.Vertical ∧
    (AMap.find?
      (setOrientation envABC Orientation.Vertical scene0).nodeGraphicsObjects
      0).isSome ∧
    (AMap.find?
      (setOrientation envABC Orientation.Vertical scene0).connectionGraphicsObjects
      cAC).isSome ∧
    setOrientation envABC Orientation.Horizontal scene0 = scene0 := by
  have h := (C4_setOrientation envABC Orientation.Vertical scene0).2 (by decide)
  have h0 := (C4_setOrientation envABC Orientation.Horizontal scene0).1 (by decide)
  exact ⟨by decide, h.1, h.2.2.2.1 0 (by decide),
    h.2.2.2.2 0 (by decide) cAC (by decide), h0⟩

/-- Claim C5: the full traversal first creates a NodeProxy for every node
id in the model's enumeration order and only then creates the connection
proxies, iterating nodes in the same order and ports in ascending index
order, so every connection proxy is created after all node proxies; on the
example model with nodes 0, 1, 2 and one connection from node 0 port 0 to
node 2 port 0 the creation order is node 0, node 1, node 2, then the
connection. -/
theorem C5_traversal_order (env : Env) (s : Scene) :
    ((traverseGraphAndPopulateGraphicsObjects env s).events =
      s.events ++ env.allNodeIds.map SceneEvent.nodeProxyCreated ++
        (allOutgoingConnectionIds env).map SceneEvent.connectionProxyCreated) ∧
    (traverseGraphAndPopulateGraphicsObjects envABC scene0).events =
      [SceneEvent.nodeProxyCreated 0, SceneEvent.nodeProxyCreated 1,
       SceneEvent.nodeProxyCreated 2, SceneEvent.connectionProxyCreated cAC] :=
  ⟨traverse_events env s, by decide⟩

/-- Claim C6: onNodeDeleted(id) twice in a row equals onNodeDeleted(id)
once (here even including the event log, since the second call finds the
id absent and does nothing), and onConnectionDeleted(id) twice in a row
leaves every registry — both proxy maps, dialogs, text labels and the
draft slot — in the same state as a single call. -/
theorem C6_deletion_idempotent (nodeId : NodeId) (cid : ConnectionId) (s : Scene) :
    onNodeDeleted nodeId (onNodeDeleted nodeId s) = onNodeDeleted nodeId s ∧
    (onConnectionDeleted cid (onConnectionDeleted cid s)).nodeGraphicsObjects =
      (onConnectionDeleted cid s).nodeGraphicsObjects ∧
    (onConnectionDeleted cid (onConnectionDeleted cid s)).connectionGraphicsObjects =
      (onConnectionDeleted cid s).connectionGraphicsObjects ∧
    (onConnectionDeleted cid (onConnectionDeleted cid s)).textItems =
      (onConnectionDeleted cid s).textItems ∧
    (onConnectionDeleted cid (onConnectionDeleted cid s)).dialogs =
      (onConnectionDeleted cid s).dialogs ∧
    (onConnectionDeleted cid (onConnectionDeleted cid s)).draftConnection =
      (onConnectionDeleted cid s).draftConnection := by
  refine ⟨onNodeDeleted_absent nodeId _ (onNodeDeleted_find?_self nodeId s), ?_⟩
  rw [onConnectionDeleted_eq cid (onConnectionDeleted cid s), onConnectionDeleted_eq cid s]
  refine ⟨rfl, ?_, ?_, ?_, ?_⟩ <;>
    simp [onConnectionDeleted_eq, AMap.eraseKey_idem, clearDraftOpt_idem]

/-- Claim C7: the draft slot holds at most one connection by construction;
after makeDraftConnection(x) then makeDraftConnection(y) with no reset in
between, exactly one draft exists and it carries the id y (last call
wins), and resetDraftConnection unconditionally empties the slot and is a
no-op on a scene that has no draft. -/
theorem C7_draft_exclusivity (env : Env) (x y : ConnectionId) (s : Scene) :
    ((makeDraftConnection env y (makeDraftConnection env x s)).draftConnection.map
      (fun d => d.connectionId) = some y) ∧
    (resetDraftConnection s).draftConnection = none ∧
    resetDraftConnection { s with draftConnection := none } =
      { s with draftConnection := none } :=
  ⟨rfl, rfl, rfl⟩

/-- Claim C8: onNodePositionUpdated on an existing proxy arms the
node-drag flag and never emits anything itself; onNodeClicked appends the
nodeMoved notification, carrying the model's current position, followed by
modified exactly when the flag was armed, appends nothing otherwise, and
always clears the flag. -/
theorem C8_drag_protocol (env : Env) (nodeId : NodeId) (s : Scene) :
    ((AMap.find? s.nodeGraphicsObjects nodeId).isSome →
      (onNodePositionUpdated env nodeId s).nodeDrag = true) ∧
    (onNodePositionUpdated env nodeId s).events = s.events ∧
    (onNodeClicked env nodeId s).events =
      s.events ++
        (if s.nodeDrag then
          [SceneEvent.nodeMoved nodeId (env.position nodeId), SceneEvent.modified]
         else []) ∧
    (onNodeClicked env nodeId s).nodeDrag = false := by
  refine ⟨?_, ?_, ?_, rfl⟩
  · intro h
    unfold onNodePositionUpdated
    cases hh : AMap.find? s.nodeGraphicsObjects nodeId with
    | none => rw [hh] at h; cases h
    | some _ => rfl
  · unfold onNodePositionUpdated
    cases hh : AMap.find? s.nodeGraphicsObjects nodeId <;> rfl
  · unfold onNodeClicked
    cases hd : s.nodeDrag <;> simp [hd]

/-- Witness for C8_drag_protocol on a scene holding a proxy for node 0. -/
theorem C8_witness :
    (AMap.find? sceneNode0.nodeGraphicsObjects 0).isSome ∧
    (onNodePositionUpdated envABC 0 sceneNode0).nodeDrag = true ∧
    (onNodeClicked envABC 0 sceneNode0).nodeDrag = false := by
  have h := C8_drag_protocol envABC 0 sceneNode0
  exact ⟨by decide, h.1 (by decide), h.2.2.2⟩

/-- Claim C9: the label of a connection is created at the connection's
current incoming endpoint displaced 50 to the left (toward the source) and
1 down, the positionChanged follower recomputes exactly that position from
the connection's current incoming endpoint while the label is alive, and
when the label is gone (entry absent or its item destroyed) the pending
notification leaves the scene untouched. -/
theorem C9_label_follows (cid : ConnectionId) (templateText : String) (s : Scene)
    (conn : ConnectionGraphicsObject) (item : TextItem)
    (hconn : AMap.find? s.connectionGraphicsObjects cid = some conn) :
    (AMap.find? (addTextUnderConnection cid templateText s).textItems cid =
      some ⟨templateText, ⟨conn.inPoint.x - 50, conn.inPoint.y + 1⟩, true⟩) ∧
    (AMap.find? s.textItems cid = some item → item.alive = true →
      AMap.find? (textItemPositionChanged cid s).textItems cid =
        some { item with pos := ⟨conn.inPoint.x - 50, conn.inPoint.y + 1⟩ }) ∧
    (∀ t : Scene, AMap.find? t.textItems cid = none →
      textItemPositionChanged cid t = t) ∧
    (∀ (t : Scene) (it : TextItem), AMap.find? t.textItems cid = some it →
      it.alive = false → textItemPositionChanged cid t = t) := by
  refine ⟨?_, ?_, ?_, ?_⟩
  · unfold addTextUnderConnection
    rw [hconn]
    simp [AMap.find?_insert]
  · intro hitem halive
    unfold textItemPositionChanged
    rw [hitem]
    simp only [halive, if_true]
    rw [hconn]
    simp [AMap.find?_insert]
  · intro t h
    unfold textItemPositionChanged
    rw [h]
  · intro t it h ha
    unfold textItemPositionChanged
    rw [h]
    simp [ha]

/-- Witness for C9_label_follows on the concrete scene whose connection
proxy has incoming endpoint (100, 20): the label lands at (50, 21). -/
theorem C9_witness :
    AMap.find? sceneConnAC.connectionGraphicsObjects cAC =
      some ⟨0, cAC, none, ⟨100, 20⟩⟩ ∧
    AMap.find? (addTextUnderConnection cAC "Header1" sceneConnAC).textItems cAC =
      some ⟨"Header1", ⟨50, 21⟩, true⟩ ∧
    AMap.find? (textItemPositionChanged cAC sceneConnAC).textItems cAC =
      some ⟨"Header1", ⟨50, 21⟩, true⟩ := by
  have h := C9_label_follows cAC "Header1" sceneConnAC ⟨0, cAC, none, ⟨100, 20⟩⟩
    ⟨"Header1", ⟨50, 21⟩, true⟩ (by decide)
  exact ⟨by decide, h.1, h.2.1 (by decide) rfl⟩

/-- Claim C10: getConnections reports exactly one entry per dialog map
entry — projecting each returned record to (connectionId, templateName)
gives back the dialog map, so a dialog opened without any category chosen
appears with the empty name that openDialog stores — and every returned
record has portTypeOut = Out, portTypeIn = In and its node ids taken from
the ConnectionId composite. -/
theorem C10_getConnections (s : Scene) (cid : ConnectionId)
    (h : AMap.find? s.dialogs cid = none) :
    ((getConnections s).map (fun info => (info.connectionId, info.templateName)) =
      s.dialogs) ∧
    (∀ info ∈ getConnections s,
      info.portTypeOut = PortType.Out ∧ info.portTypeIn = PortType.In ∧
      info.nodeIdOut = info.connectionId.outNodeId ∧
      info.nodeIdIn = info.connectionId.inNodeId) ∧
    AMap.find? (openDialog cid s).dialogs cid = some "" := by
  refine ⟨?_, ?_, ?_⟩
  · have hmap : ∀ l : List (ConnectionId × String), l.map (fun p => (p.1, p.2)) = l := by
      intro l
      induction l with
      | nil => rfl
      | cons p rest ih => simp [ih]
    simp only [getConnections, List.map_map, Function.comp]
    exact hmap s.dialogs
  · intro info hinfo
    unfold getConnections at hinfo
    rw [List.mem_map] at hinfo
    obtain ⟨p, hp, rfl⟩ := hinfo
    exact ⟨rfl, rfl, rfl, rfl⟩
  · unfold openDialog
    rw [h]
    simp [emitModified, AMap.find?_insert]

/-- Witness for C10_getConnections on the fresh scene, whose dialog map
has no entry for cAC before openDialog and the empty name after. -/
theorem C10_witness :
    AMap.find? scene0.dialogs cAC = none ∧
    AMap.find? (openDialog cAC scene0).dialogs cAC = some "" :=
  ⟨rfl, (C10_getConnections scene0 cAC rfl).2.2⟩

end QtNodes
